import Mathlib

/-!
Shallow embedding of the pycrane2s Crane 2S gimbal controller
(src/pycrane2s/Crane2SProtocol.py and src/pycrane2s/main.py).

Bytes are modelled as `ℕ` (each in [0,256)), byte strings as `List ℕ`,
Python's arbitrary-precision `int` as `ℤ`, and Python `float` inputs as `ℚ`
(exact arithmetic; where a claim's verdict could depend on binary-float
rounding this is noted at the theorem).  Python exceptions are modelled with
`PyErr` and `Except`; mutation of `self._seq` is explicit state passing.
-/

/-- Python exceptions raised by the code paths modelled here. -/
inductive PyErr where
  | valueError : String → PyErr
  | overflowError : PyErr
  | zeroDivisionError : PyErr
  | attributeError : String → PyErr
  | connectionError : String → PyErr
deriving DecidableEq

/-- One inner-loop round of `_xmodem_crc16`:
`crc = ((crc << 1) ^ 0x1021) if (crc & 0x8000) else (crc << 1); crc &= 0xFFFF`. -/
def crcRound (crc : ℕ) : ℕ :=
  (if crc &&& 0x8000 ≠ 0 then (crc <<< 1) ^^^ 0x1021 else crc <<< 1) &&& 0xFFFF

/-- Processing one input byte of `_xmodem_crc16`: `crc ^= b << 8` followed by the
eight shift rounds. -/
def crcByte (crc b : ℕ) : ℕ := crcRound^[8] (crc ^^^ (b <<< 8))

/-- `Crane2SProtocol._xmodem_crc16` (identical code appears as
`Crane2S._xmodem_crc16` in main.py): CRC-16/XMODEM, init 0x0000, poly 0x1021,
MSB-first, no reflection, no final XOR. -/
def xmodem_crc16 (data : List ℕ) : ℕ := data.foldl crcByte 0

/-- Python `n.to_bytes(2, 'little')` for `0 ≤ n < 65536`. -/
def le16 (n : ℕ) : List ℕ := [n % 256, n / 256]

/-- The speed byte `max(1, min(255, speed))` (protocol) — the transport-bound
variant writes `max(1, min(speed, 255))`, the same function. -/
def clampSpeed (speed : ℤ) : ℕ := (max 1 (min 255 speed)).toNat

/-- `Crane2SProtocol._next_seq`: returns the current `_seq` and stores
`(_seq + 1) & 0xFF`. -/
def next_seq (s : ℕ) : ℕ × ℕ := (s, (s + 1) % 256)

/-- `Crane2SProtocol.build_cmd(cmd_id, value, speed)`, with the instance's
`_seq` as explicit state.  The packet is
header `24 3C`, length `08 00`, then the 8 bytes `18 12 | seq | 01 | cmd_id & 0xFF |
(value & 0x0FFF) LE | clamped speed` — exactly the slice `pkt[4:]` at the moment
the CRC is computed — then the CRC little-endian.  Python `x & 0x0FFF` on an
`int` equals `x % 4096 ≥ 0`, i.e. `Int.emod`. -/
def build_cmd (cmd_id value speed : ℤ) (s : ℕ) : List ℕ × ℕ :=
  let sq := next_seq s
  let body := [0x18, 0x12, sq.1, 0x01, ((cmd_id % 256).toNat)]
      ++ le16 ((value % 4096).toNat) ++ [clampSpeed speed]
  let crc := xmodem_crc16 body
  ([0x24, 0x3C, 0x08, 0x00] ++ body ++ le16 crc, sq.2)

/-- C1: the frame is 14 bytes and bytes 12–13 (little-endian) are the
CRC-16/XMODEM of bytes 4–11; speed 0 is clamped to 1 and speed 256 to 255. -/
theorem build_cmd_crc_roundtrip (cmd_id value speed : ℤ) (s : ℕ) :
    (build_cmd cmd_id value speed s).1.length = 14 ∧
    ((build_cmd cmd_id value speed s).1.drop 12 =
      le16 (xmodem_crc16 (((build_cmd cmd_id value speed s).1.drop 4).take 8))) ∧
    (build_cmd cmd_id value 0 s).1.getD 11 0 = 1 ∧
    (build_cmd cmd_id value 256 s).1.getD 11 0 = 255 := by
  refine ⟨rfl, ?_, rfl, rfl⟩
  simp [build_cmd, le16, next_seq]

/-- `n` consecutive `build_cmd` calls on one `Crane2SProtocol` instance:
the produced frames in order, paired with the final `_seq`. -/
def protoRun (cmd_id value speed : ℤ) : ℕ → ℕ → List (List ℕ) × ℕ
  | 0, s => ([], s)
  | n + 1, s =>
      let fr := build_cmd cmd_id value speed s
      let rest := protoRun cmd_id value speed n fr.2
      (fr.1 :: rest.1, rest.2)

theorem protoRun_state (cmd_id value speed : ℤ) :
    ∀ n s, s < 256 → (protoRun cmd_id value speed n s).2 = (s + n) % 256 := by
  intro n
  induction n with
  | zero =>
      intro s hs
      simp [protoRun]
      omega
  | succ n ih =>
      intro s hs
      have hs' : (s + 1) % 256 < 256 := Nat.mod_lt _ (by omega)
      simp only [protoRun, build_cmd, next_seq, ih _ hs']
      rw [Nat.mod_add_mod]
      congr 1
      omega

theorem protoRun_length (cmd_id value speed : ℤ) :
    ∀ n s, (protoRun cmd_id value speed n s).1.length = n := by
  intro n
  induction n with
  | zero => intro s; rfl
  | succ n ih => intro s; simp [protoRun, ih]

theorem build_cmd_seq_byte (cmd_id value speed : ℤ) (s : ℕ) :
    (build_cmd cmd_id value speed s).1.getD 6 0 = s := by
  rfl

theorem protoRun_seq_bytes (cmd_id value speed : ℤ) :
    ∀ n s i, i < n → s < 256 →
      ((protoRun cmd_id value speed n s).1.getD i []).getD 6 0 = (s + i) % 256 := by
  intro n
  induction n with
  | zero => intro s i hi _; omega
  | succ n ih =>
      intro s i hi hs
      match i with
      | 0 =>
          show (build_cmd cmd_id value speed s).1.getD 6 0 = s % 256
          rw [build_cmd_seq_byte, Nat.mod_eq_of_lt hs]
      | j + 1 =>
          have hj : j < n := by omega
          have hs' : (s + 1) % 256 < 256 := Nat.mod_lt _ (by omega)
          have := ih ((s + 1) % 256) j hj hs'
          simp only [protoRun, List.getD_cons_succ] at *
          rw [show (build_cmd cmd_id value speed s).2 = (s + 1) % 256 from rfl] at *
          rw [this, Nat.mod_add_mod]
          congr 1
          omega

/-- C2: starting from any reachable counter value `s < 256`, the sequence
counter is incremented exactly once per frame built (`_next_seq` returns the
pre-increment value, each frame carries it in byte 6), `n` consecutive builds
carry sequence bytes `s, s+1 mod 256, …, s+n-1 mod 256`, and 256 builds
return the counter to `s`. -/
theorem protoRun_sequence_monotone (cmd_id value speed : ℤ) (s n : ℕ)
    (hs : s < 256) :
    (build_cmd cmd_id value speed s).2 = (s + 1) % 256 ∧
    (build_cmd cmd_id value speed s).1.getD 6 0 = s ∧
    (protoRun cmd_id value speed n s).1.length = n ∧
    (∀ i, i < n →
      ((protoRun cmd_id value speed n s).1.getD i []).getD 6 0 = (s + i) % 256) ∧
    (protoRun cmd_id value speed 256 s).2 = s := by
  refine ⟨rfl, build_cmd_seq_byte _ _ _ _, protoRun_length _ _ _ _ _, ?_, ?_⟩
  · intro i hi
    exact protoRun_seq_bytes cmd_id value speed n s i hi hs
  · rw [protoRun_state cmd_id value speed 256 s hs]
    omega

/-- Closed-form witness for `protoRun_sequence_monotone` at concrete inputs. -/
theorem protoRun_sequence_monotone_witness :
    (build_cmd 2 3000 50 17).2 = (17 + 1) % 256 ∧
    (build_cmd 2 3000 50 17).1.getD 6 0 = 17 ∧
    (protoRun 2 3000 50 3 17).1.length = 3 ∧
    (∀ i, i < 3 →
      ((protoRun 2 3000 50 3 17).1.getD i []).getD 6 0 = (17 + i) % 256) ∧
    (protoRun 2 3000 50 256 17).2 = 17 :=
  protoRun_sequence_monotone 2 3000 50 17 3 (by decide)

/-- The mutable state of a `Crane2S` instance: `_seq`, `_heartbeat_enabled`,
and `_client` (`none` = no `BleakClient` yet; `some b` = a client whose
`is_connected` is `b`). -/
structure CraneState where
  seq : ℕ
  heartbeatEnabled : Bool
  client : Option Bool
deriving DecidableEq

/-- `Crane2S.__init__`: `_seq = 0`, `_client = None`, `_heartbeat_enabled = False`. -/
def craneInit : CraneState := ⟨0, false, none⟩

/-- `Crane2S._build_cmd`, with `self._seq` as explicit state.  Differs from
`Crane2SProtocol.build_cmd` in using `int.to_bytes`, which raises
`OverflowError` when the integer does not fit the requested width instead of
masking: `self._seq.to_bytes(1)` (then the increment of `_seq`), then
`cmd_id.to_bytes(1)`.  Returns the post-call `_seq` together with the packet
or the exception.  The `value` and clamped-speed fields always fit. -/
def main_build_cmd (cmd_id value speed : ℤ) (s : ℕ) : ℕ × Except PyErr (List ℕ) :=
  if 256 ≤ s then (s, .error .overflowError)
  else
    let s' := (s + 1) % 256
    if cmd_id < 0 ∨ 256 ≤ cmd_id then (s', .error .overflowError)
    else
      let body := [0x18, 0x12, s, 0x01, cmd_id.toNat]
          ++ le16 ((value % 4096).toNat) ++ [clampSpeed speed]
      let crc := xmodem_crc16 body
      (s', .ok ([0x24, 0x3C, 0x08, 0x00] ++ body ++ le16 crc))

/-- Helper: on byte-sized `cmd_id` and a reachable counter the transport-bound
builder succeeds with the pure-protocol frame and the same post-state. -/
theorem main_build_cmd_eq_proto (cmd_id value speed : ℤ) (s : ℕ)
    (hc0 : 0 ≤ cmd_id) (hc1 : cmd_id < 256) (hs : s < 256) :
    main_build_cmd cmd_id value speed s =
      ((s + 1) % 256, .ok (build_cmd cmd_id value speed s).1) := by
  rw [main_build_cmd, if_neg (by omega), if_neg (by push_neg; omega)]
  have : (cmd_id % 256).toNat = cmd_id.toNat := by
    rw [Int.emod_eq_of_lt hc0 hc1]
  simp [build_cmd, next_seq, this]

/-- C9 (amended): for every `cmd_id` in `[0,255]`, every `value`, `speed` and
reachable counter state `s < 256`, `Crane2SProtocol.build_cmd` and
`Crane2S._build_cmd` produce the same 14-byte frame and the same next counter
state. -/
theorem builders_agree (cmd_id value speed : ℤ) (s : ℕ)
    (hc0 : 0 ≤ cmd_id) (hc1 : cmd_id < 256) (hs : s < 256) :
    (main_build_cmd cmd_id value speed s).2 =
      .ok (build_cmd cmd_id value speed s).1 ∧
    (main_build_cmd cmd_id value speed s).1 = (build_cmd cmd_id value speed s).2 := by
  rw [main_build_cmd_eq_proto cmd_id value speed s hc0 hc1 hs]
  exact ⟨rfl, rfl⟩

/-- Witness for `builders_agree` at cmd_id=2 (pan), value=3000, speed=50, seq=0. -/
theorem builders_agree_witness :
    (main_build_cmd 2 3000 50 0).2 = .ok (build_cmd 2 3000 50 0).1 ∧
    (main_build_cmd 2 3000 50 0).1 = (build_cmd 2 3000 50 0).2 :=
  builders_agree 2 3000 50 0 (by decide) (by decide) (by decide)

/-- C9 counterexample: at `cmd_id = 256` (value 0, speed 1, counter 0) the
transport-bound builder raises `OverflowError` from `cmd_id.to_bytes(1)` while
the pure-protocol builder masks `cmd_id & 0xFF` and returns a frame, so the
two builders do not produce the same frame for every `cmd_id`. -/
theorem builders_disagree_at_256 :
    (main_build_cmd 256 0 1 0).2 = .error .overflowError ∧
    (main_build_cmd 256 0 1 0).2 ≠ .ok (build_cmd 256 0 1 0).1 ∧
    (build_cmd 256 0 1 0).1.length = 14 := by
  refine ⟨rfl, ?_, rfl⟩
  intro h
  simp [main_build_cmd] at h

/-- `Crane2S._on_notify(sender, data)`: if `len(data) >= 6 and data[4] == 0x18
and data[5] == 0x15`, and `_heartbeat_enabled`, schedule one
`write_gatt_char(self.write_uuid, data)` — the received bytes themselves;
otherwise the packet is only logged.  Returns the list of scheduled echo
writes and the (unchanged) instance state. -/
def on_notify (st : CraneState) (data : List ℕ) : List (List ℕ) × CraneState :=
  if 6 ≤ data.length ∧ data.getD 4 0 = 0x18 ∧ data.getD 5 0 = 0x15 then
    if st.heartbeatEnabled then ([data], st) else ([], st)
  else ([], st)

/-- `Crane2S.disconnect`: only when `self._client and self._client.is_connected`
does it set `_heartbeat_enabled = False` (before `stop_notify`) and call
`self._client.disconnect()`, after which the client's `is_connected` is false. -/
def disconnect (st : CraneState) : CraneState :=
  match st.client with
  | some true => { st with heartbeatEnabled := false, client := some false }
  | _ => st

/-- C3: a buffer of length ≥ 6 with bytes 4–5 = `0x18 0x15` delivered to
`_on_notify` while `_heartbeat_enabled` is true causes exactly one send of
exactly that buffer and leaves the whole state — the sequence counter
included — unchanged; `disconnect` from a connected client clears
`_heartbeat_enabled`, after which the same input causes zero sends. -/
theorem heartbeat_echo (b : List ℕ) (st : CraneState)
    (hlen : 6 ≤ b.length) (h4 : b.getD 4 0 = 0x18) (h5 : b.getD 5 0 = 0x15)
    (hhb : st.heartbeatEnabled = true) (hcl : st.client = some true) :
    on_notify st b = ([b], st) ∧
    (disconnect st).heartbeatEnabled = false ∧
    on_notify (disconnect st) b = ([], disconnect st) := by
  have hd : disconnect st = { st with heartbeatEnabled := false, client := some false } := by
    rw [disconnect, hcl]
  refine ⟨?_, ?_, ?_⟩
  · rw [on_notify, if_pos ⟨hlen, h4, h5⟩, if_pos hhb]
  · rw [hd]
  · rw [hd, on_notify, if_pos ⟨hlen, h4, h5⟩]
    simp

/-- Witness for `heartbeat_echo`: a concrete 6-byte heartbeat delivered to a
connected controller with a nonzero sequence counter. -/
theorem heartbeat_echo_witness :
    on_notify ⟨7, true, some true⟩ [0, 0, 0, 0, 0x18, 0x15] =
      ([[0, 0, 0, 0, 0x18, 0x15]], ⟨7, true, some true⟩) ∧
    (disconnect ⟨7, true, some true⟩).heartbeatEnabled = false ∧
    on_notify (disconnect ⟨7, true, some true⟩) [0, 0, 0, 0, 0x18, 0x15] =
      ([], disconnect ⟨7, true, some true⟩) :=
  heartbeat_echo [0, 0, 0, 0, 0x18, 0x15] ⟨7, true, some true⟩
    (by decide) (by decide) (by decide) rfl rfl

/-- `Crane2S.send_cmd`: builds the packet via `_build_cmd` (which mutates
`_seq`), then calls `self._client.write_gatt_char(...)`.  There is no
connection check: with `_client = None` the attribute access on `None` raises
`AttributeError` — after the sequence counter has already been consumed.
With a client present the packet is handed to the transport. -/
def send_cmd (cmd_id value speed : ℤ) (st : CraneState) :
    CraneState × Except PyErr (List ℕ) :=
  let br := main_build_cmd cmd_id value speed st.seq
  let st' := { st with seq := br.1 }
  match br.2 with
  | .error e => (st', .error e)
  | .ok pkt =>
      match st.client with
      | none => (st', .error (.attributeError "write_gatt_char"))
      | some _ => (st', .ok pkt)

/-- Python truncating conversion `int(q)` on an exact rational. -/
def pytrunc (q : ℚ) : ℤ := if 0 ≤ q then ⌊q⌋ else ⌈q⌉

/-- The iteration count of `Crane2S._motion_loop`:
`count = max(1, int(duration / 0.2))`.  `int()` truncates; the quotient is
taken here in exact rational arithmetic (Python computes it in binary
floating point, noted where a claim depends on it). -/
def motion_count (duration : ℚ) : ℕ := (max 1 (pytrunc (duration / 0.2))).toNat

/-- The `for _ in range(count)` body of `_motion_loop`: `count` successive
`send_cmd` calls, stopping at the first exception, collecting the packets
handed to the transport. -/
def sendLoop (cmd_id value speed : ℤ) : ℕ → CraneState →
    CraneState × Except PyErr (List (List ℕ))
  | 0, st => (st, .ok [])
  | n + 1, st =>
      let r := send_cmd cmd_id value speed st
      match r.2 with
      | .error e => (r.1, .error e)
      | .ok pkt =>
          let rest := sendLoop cmd_id value speed n r.1
          match rest.2 with
          | .error e => (rest.1, .error e)
          | .ok pkts => (rest.1, .ok (pkt :: pkts))

/-- `Crane2S._motion_loop(cmd_id, value, speed, duration)`: raises
`ConnectionError("Not connected")` when `not self._client or not
self._client.is_connected`, otherwise sends `max(1, int(duration/0.2))`
frames at the 0.2 s cadence. -/
def motion_loop (cmd_id value speed : ℤ) (duration : ℚ) (st : CraneState) :
    CraneState × Except PyErr (List (List ℕ)) :=
  match st.client with
  | none => (st, .error (.connectionError "Not connected"))
  | some false => (st, .error (.connectionError "Not connected"))
  | some true => sendLoop cmd_id value speed (motion_count duration) st

theorem protoRun_getD (cmd_id value speed : ℤ) :
    ∀ n s i, i < n → s < 256 →
      (protoRun cmd_id value speed n s).1.getD i [] =
        (build_cmd cmd_id value speed ((s + i) % 256)).1 := by
  intro n
  induction n with
  | zero => intro s i hi _; omega
  | succ n ih =>
      intro s i hi hs
      match i with
      | 0 =>
          show (build_cmd cmd_id value speed s).1 = _
          rw [Nat.add_zero, Nat.mod_eq_of_lt hs]
      | j + 1 =>
          have hj : j < n := by omega
          have hs' : (s + 1) % 256 < 256 := Nat.mod_lt _ (by omega)
          have := ih ((s + 1) % 256) j hj hs'
          simp only [protoRun, List.getD_cons_succ]
          rw [show (build_cmd cmd_id value speed s).2 = (s + 1) % 256 from rfl,
            this, Nat.mod_add_mod]
          congr 2
          omega

theorem sendLoop_connected (cmd_id value speed : ℤ)
    (hc0 : 0 ≤ cmd_id) (hc1 : cmd_id < 256) :
    ∀ n st, st.client = some true → st.seq < 256 →
      sendLoop cmd_id value speed n st =
        ({ st with seq := (st.seq + n) % 256 },
          .ok (protoRun cmd_id value speed n st.seq).1) := by
  intro n
  induction n with
  | zero =>
      intro st hcl hs
      have h0 : (st.seq + 0) % 256 = st.seq := by omega
      simp only [sendLoop, protoRun, h0]
  | succ n ih =>
      intro st hcl hs
      have hbuild := main_build_cmd_eq_proto cmd_id value speed st.seq hc0 hc1 hs
      have hs' : (st.seq + 1) % 256 < 256 := Nat.mod_lt _ (by omega)
      have hstep : send_cmd cmd_id value speed st =
          ({ st with seq := (st.seq + 1) % 256 },
            .ok (build_cmd cmd_id value speed st.seq).1) := by
        rw [send_cmd, hbuild, hcl]
      rw [sendLoop, hstep]
      simp only []
      rw [ih { st with seq := (st.seq + 1) % 256 } hcl hs']
      simp only [protoRun]
      rw [show (build_cmd cmd_id value speed st.seq).2 = (st.seq + 1) % 256 from rfl]
      congr 2
      rw [Nat.mod_add_mod]
      omega

/-- C4 (amended): with a connected client, a byte-sized command id and a
reachable counter, `_motion_loop` issues exactly
`max(1, trunc(duration/0.2))` sends — truncation, not ceiling, with a
minimum of 1 — and the i-th frame sent is exactly the frame built for
sequence `(s+i) mod 256`: the sequence increments once per send and every
other input field is held constant. -/
theorem motion_loop_count (cmd_id value speed : ℤ) (d : ℚ) (st : CraneState)
    (hc0 : 0 ≤ cmd_id) (hc1 : cmd_id < 256)
    (hcl : st.client = some true) (hs : st.seq < 256) :
    (motion_loop cmd_id value speed d st).2 =
      .ok (protoRun cmd_id value speed (motion_count d) st.seq).1 ∧
    (protoRun cmd_id value speed (motion_count d) st.seq).1.length =
      (max 1 (pytrunc (d / 0.2))).toNat ∧
    1 ≤ motion_count d ∧
    (∀ i, i < motion_count d →
      (protoRun cmd_id value speed (motion_count d) st.seq).1.getD i [] =
        (build_cmd cmd_id value speed ((st.seq + i) % 256)).1) := by
  refine ⟨?_, protoRun_length _ _ _ _ _, ?_, ?_⟩
  · rw [motion_loop, hcl]
    rw [sendLoop_connected cmd_id value speed hc0 hc1 (motion_count d) st hcl hs]
  · rw [motion_count]
    omega
  · intro i hi
    exact protoRun_getD cmd_id value speed (motion_count d) st.seq i hi hs

/-- Witness for `motion_loop_count` at pan/3000/50, duration 0.5 s, from a
freshly connected controller. -/
theorem motion_loop_count_witness :
    (motion_loop 2 3000 50 (0.5 : ℚ) ⟨0, true, some true⟩).2 =
      .ok (protoRun 2 3000 50 (motion_count (0.5 : ℚ)) 0).1 ∧
    (protoRun 2 3000 50 (motion_count (0.5 : ℚ)) 0).1.length =
      (max 1 (pytrunc ((0.5 : ℚ) / 0.2))).toNat ∧
    1 ≤ motion_count (0.5 : ℚ) ∧
    (∀ i, i < motion_count (0.5 : ℚ) →
      (protoRun 2 3000 50 (motion_count (0.5 : ℚ)) 0).1.getD i [] =
        (build_cmd 2 3000 50 ((0 + i) % 256)).1) :=
  motion_loop_count 2 3000 50 (0.5 : ℚ) ⟨0, true, some true⟩
    (by decide) (by decide) rfl (by decide)

/-- C4 counterexample: `duration = 0.5` gives `int(0.5/0.2) = 2` iterations
(`0.5/0.2 = 2.5` exactly; Python's float division even yields
`2.4999999999999996`, truncating to 2 as well), while the claim's
`ceil(0.5/0.2)` is 3: the motion loop issues 2 sends, not 3. -/
theorem motion_loop_half_second_is_two_sends :
    motion_count (0.5 : ℚ) = 2 ∧
    (⌈((0.5 : ℚ) / 0.2)⌉).toNat = 3 ∧
    motion_count (0.5 : ℚ) ≠ (⌈((0.5 : ℚ) / 0.2)⌉).toNat ∧
    (motion_loop 2 3000 50 (0.5 : ℚ) ⟨0, true, some true⟩).2 =
      .ok [(build_cmd 2 3000 50 0).1, (build_cmd 2 3000 50 1).1] := by
  have hmc : motion_count (0.5 : ℚ) = 2 := by
    rw [motion_count, pytrunc]
    norm_num
    rfl
  have hceil : (⌈((0.5 : ℚ) / 0.2)⌉) = 3 := by
    rw [Int.ceil_eq_iff]
    norm_num
  refine ⟨hmc, by rw [hceil]; rfl, by rw [hmc, hceil]; decide, ?_⟩
  rw [motion_loop]
  simp only []
  rw [sendLoop_connected 2 3000 50 (by decide) (by decide) (motion_count (0.5 : ℚ))
    ⟨0, true, some true⟩ rfl (by decide)]
  rw [hmc]
  rfl

/-- C6 (amended): `send_cmd` itself performs no connection-state check — on a
controller whose client was never created it consumes a sequence number and
then fails with `AttributeError` from the `None` client, and on a client that
is merely disconnected the core still hands the frame to the transport; the
`NotConnected` guard (`ConnectionError("Not connected")`) is raised only by
`_motion_loop`, before building any frame and without touching the state. -/
theorem send_cmd_has_no_connection_guard (cmd_id value speed : ℤ)
    (st : CraneState) (d : ℚ)
    (hc0 : 0 ≤ cmd_id) (hc1 : cmd_id < 256) (hs : st.seq < 256) :
    (st.client = none →
      send_cmd cmd_id value speed st =
        ({ st with seq := (st.seq + 1) % 256 },
          .error (.attributeError "write_gatt_char"))) ∧
    (st.client = some false →
      send_cmd cmd_id value speed st =
        ({ st with seq := (st.seq + 1) % 256 },
          .ok (build_cmd cmd_id value speed st.seq).1)) ∧
    (st.client = none ∨ st.client = some false →
      motion_loop cmd_id value speed d st =
        (st, .error (.connectionError "Not connected"))) := by
  have hbuild := main_build_cmd_eq_proto cmd_id value speed st.seq hc0 hc1 hs
  refine ⟨?_, ?_, ?_⟩
  · intro hcl
    rw [send_cmd, hbuild, hcl]
  · intro hcl
    rw [send_cmd, hbuild, hcl]
  · rintro (hcl | hcl) <;> rw [motion_loop, hcl]

/-- Witness for `send_cmd_has_no_connection_guard` on a freshly created
controller (`_client = None`, `_seq = 0`). -/
theorem send_cmd_has_no_connection_guard_witness :
    (craneInit.client = none →
      send_cmd 2 3000 50 craneInit =
        ({ craneInit with seq := (craneInit.seq + 1) % 256 },
          .error (.attributeError "write_gatt_char"))) ∧
    (craneInit.client = some false →
      send_cmd 2 3000 50 craneInit =
        ({ craneInit with seq := (craneInit.seq + 1) % 256 },
          .ok (build_cmd 2 3000 50 craneInit.seq).1)) ∧
    (craneInit.client = none ∨ craneInit.client = some false →
      motion_loop 2 3000 50 1 craneInit =
        (craneInit, .error (.connectionError "Not connected"))) :=
  send_cmd_has_no_connection_guard 2 3000 50 craneInit 1
    (by decide) (by decide) (by decide)

/-- C6 counterexample: on a never-connected controller `send_cmd` fails with
`AttributeError` (the `None` client has no `write_gatt_char`), not with the
`NotConnected` error, and the sequence counter has already been consumed. -/
theorem send_cmd_disconnected_is_attribute_error :
    (send_cmd 2 3000 50 craneInit).2 = .error (.attributeError "write_gatt_char") ∧
    (send_cmd 2 3000 50 craneInit).2 ≠ .error (.connectionError "Not connected") ∧
    (send_cmd 2 3000 50 craneInit).1.seq = 1 := by
  refine ⟨rfl, ?_, rfl⟩
  intro h
  rw [show (send_cmd 2 3000 50 craneInit).2 =
    .error (.attributeError "write_gatt_char") from rfl] at h
  exact PyErr.noConfusion (Except.error.inj h)

/-- `Crane2SProtocol.pan_pct(pct, speed_pct)`:
`val = int(2048 + pct * 2047)`, `spd = int(max(1, min(255, speed_pct * 255)))`,
then `self.pan(val, spd) = build_cmd(0x02, val, spd)`.  Python `int()` on a
float truncates toward zero (`pytrunc`). -/
def pan_pct (pct speed_pct : ℚ) (s : ℕ) : List ℕ × ℕ :=
  let val := pytrunc (2048 + pct * 2047)
  let spd := pytrunc (max 1 (min 255 (speed_pct * 255)))
  build_cmd 0x02 val spd s

/-- The value field of a frame: bytes 9–10, little-endian. -/
def frameValue (f : List ℕ) : ℕ := f.getD 9 0 + 256 * f.getD 10 0

/-- The speed field of a frame: byte 11. -/
def frameSpeed (f : List ℕ) : ℕ := f.getD 11 0

theorem frameValue_build_cmd (cmd_id v sp : ℤ) (s : ℕ)
    (h0 : 0 ≤ v) (h1 : v < 4096) :
    frameValue (build_cmd cmd_id v sp s).1 = v.toNat := by
  have hm : v % 4096 = v := Int.emod_eq_of_lt h0 h1
  simp [frameValue, build_cmd, le16, next_seq, hm]
  omega

theorem frameSpeed_build_cmd (cmd_id v sp : ℤ) (s : ℕ) :
    frameSpeed (build_cmd cmd_id v sp s).1 = clampSpeed sp := by
  rfl

/-- C5 (amended): for `p ∈ [-1,1]`, `pan_pct(p, sp)` encodes
`value = trunc(2048 + p·2047)` — Python `int()` truncation, not rounding —
and `speed = trunc(max(1, min(255, sp·255)))`; in particular
`pan_pct(1.0, 1.0)` encodes value 4095 and speed 255, and `pan_pct(-1.0, 0.0)`
encodes value 1 and speed 1. -/
theorem pan_pct_encoding (p sp : ℚ) (s : ℕ) (hp1 : -1 ≤ p) (hp2 : p ≤ 1) :
    frameValue (pan_pct p sp s).1 = (pytrunc (2048 + p * 2047)).toNat ∧
    frameSpeed (pan_pct p sp s).1 =
      (pytrunc (max 1 (min 255 (sp * 255)))).toNat ∧
    frameValue (pan_pct 1 1 s).1 = 4095 ∧
    frameSpeed (pan_pct 1 1 s).1 = 255 ∧
    frameValue (pan_pct (-1) 0 s).1 = 1 ∧
    frameSpeed (pan_pct (-1) 0 s).1 = 1 := by
  have harg1 : (1 : ℚ) ≤ 2048 + p * 2047 := by linarith
  have harg2 : (2048 : ℚ) + p * 2047 ≤ 4095 := by linarith
  have hptr : pytrunc (2048 + p * 2047) = ⌊(2048 : ℚ) + p * 2047⌋ := by
    rw [pytrunc, if_pos (by linarith)]
  have hv1 : (1 : ℤ) ≤ pytrunc (2048 + p * 2047) := by
    rw [hptr]
    exact Int.le_floor.mpr (by exact_mod_cast harg1)
  have hv2 : pytrunc (2048 + p * 2047) ≤ 4095 := by
    rw [hptr]
    have hle : ((⌊(2048 : ℚ) + p * 2047⌋ : ℤ) : ℚ) ≤ 4095 :=
      (Int.floor_le _).trans harg2
    exact_mod_cast hle
  have hs1 : (1 : ℚ) ≤ max 1 (min 255 (sp * 255)) := le_max_left _ _
  have hs2 : max 1 (min 255 (sp * 255)) ≤ 255 :=
    max_le (by norm_num) (min_le_left _ _)
  have hstr : pytrunc (max 1 (min 255 (sp * 255))) =
      ⌊max 1 (min 255 (sp * 255))⌋ := by
    rw [pytrunc, if_pos (by linarith)]
  have hw1 : (1 : ℤ) ≤ pytrunc (max 1 (min 255 (sp * 255))) := by
    rw [hstr]
    exact Int.le_floor.mpr (by exact_mod_cast hs1)
  have hw2 : pytrunc (max 1 (min 255 (sp * 255))) ≤ 255 := by
    rw [hstr]
    have hle : ((⌊max 1 (min 255 (sp * 255))⌋ : ℤ) : ℚ) ≤ 255 :=
      (Int.floor_le _).trans hs2
    exact_mod_cast hle
  have e1 : pan_pct 1 1 s = build_cmd 2 4095 255 s := by
    simp only [pan_pct, pytrunc, min_def, max_def]
    norm_num
  have e2 : pan_pct (-1) 0 s = build_cmd 2 1 1 s := by
    simp only [pan_pct, pytrunc, min_def, max_def]
    norm_num
  refine ⟨?_, ?_, ?_, ?_, ?_, ?_⟩
  · exact frameValue_build_cmd 2 _ _ s (by omega) (by omega)
  · rw [show frameSpeed (pan_pct p sp s).1 =
      clampSpeed (pytrunc (max 1 (min 255 (sp * 255)))) from rfl, clampSpeed]
    omega
  · rw [e1]
    exact frameValue_build_cmd 2 4095 255 s (by decide) (by decide)
  · rw [e1]; rfl
  · rw [e2]
    exact frameValue_build_cmd 2 1 1 s (by decide) (by decide)
  · rw [e2]; rfl

/-- Witness for `pan_pct_encoding` at `p = 1/2`, `sp = 1/2`, seq 0. -/
theorem pan_pct_encoding_witness :
    frameValue (pan_pct (1/2) (1/2) 0).1 = (pytrunc (2048 + (1/2) * 2047)).toNat ∧
    frameSpeed (pan_pct (1/2) (1/2) 0).1 =
      (pytrunc (max 1 (min 255 ((1/2) * 255)))).toNat ∧
    frameValue (pan_pct 1 1 0).1 = 4095 ∧
    frameSpeed (pan_pct 1 1 0).1 = 255 ∧
    frameValue (pan_pct (-1) 0 0).1 = 1 ∧
    frameSpeed (pan_pct (-1) 0 0).1 = 1 :=
  pan_pct_encoding (1/2) (1/2) 0 (by norm_num) (by norm_num)

/-- C5 counterexample: at `p = 1/2` (speed 1/2) the code truncates
`2048 + 0.5·2047 = 3071.5` to value 3071 and `127.5` to speed 127, while the
claim's `round` would give 3072 and 128 (Python's banker's rounding agrees at
these half-way points, both arguments being rounded toward even). -/
theorem pan_pct_truncates_not_rounds :
    frameValue (pan_pct (1/2) (1/2) 0).1 = 3071 ∧
    round ((2048 : ℚ) + (1/2) * 2047) = 3072 ∧
    (frameValue (pan_pct (1/2) (1/2) 0).1 : ℤ) ≠
      round ((2048 : ℚ) + (1/2) * 2047) ∧
    frameSpeed (pan_pct (1/2) (1/2) 0).1 = 127 ∧
    round (max 1 (min 255 ((1/2 : ℚ) * 255))) = 128 ∧
    (frameSpeed (pan_pct (1/2) (1/2) 0).1 : ℤ) ≠
      round (max 1 (min 255 ((1/2 : ℚ) * 255))) := by
  have e : pan_pct (1/2) (1/2) 0 = build_cmd 2 3071 127 0 := by
    simp only [pan_pct, pytrunc, min_def, max_def]
    norm_num
  have hval : frameValue (pan_pct (1/2) (1/2) 0).1 = 3071 := by
    rw [e]
    exact frameValue_build_cmd 2 3071 127 0 (by decide) (by decide)
  have hrv : round ((2048 : ℚ) + (1/2) * 2047) = 3072 := by
    rw [round_eq]
    norm_num
  have hspd : frameSpeed (pan_pct (1/2) (1/2) 0).1 = 127 := by
    rw [e]; rfl
  have hrs : round (max 1 (min 255 ((1/2 : ℚ) * 255))) = 128 := by
    rw [max_def, min_def, round_eq]
    norm_num
  refine ⟨hval, hrv, ?_, hspd, hrs, ?_⟩
  · rw [hval, hrv]; decide
  · rw [hspd, hrs]; decide

/-- The attributes defined on class `Crane2S` in main.py (Python resolves
`self.gimbal.<name>` against these). -/
def crane2SMethods : List String :=
  ["address", "write_uuid", "notify_uuid", "_seq", "_client",
   "_heartbeat_enabled", "__aenter__", "__aexit__", "connect", "disconnect",
   "send_cmd", "_build_cmd", "_xmodem_crc16", "pan", "tilt", "pan_pct",
   "tilt_pct", "pan_step", "tilt_step", "stop", "reset_position",
   "_motion_loop", "_on_notify"]

/-- `Crane2SPresets.track_2d(target_x, target_y, frame_w, frame_h, speed_pct)`:
computes `pan_offset = (target_x / frame_w) * 2 - 1` (Python raises
`ZeroDivisionError` on a zero divisor, for floats too), then
`tilt_offset = 1 - (target_y / frame_h) * 2`, then looks up
`self.gimbal.set_pan_pct` — which `Crane2S` does not define — so the call
raises `AttributeError` before any frame is built or sent. -/
def track_2d (target_x target_y frame_w frame_h _speed_pct : ℚ) :
    Except PyErr (ℚ × ℚ) :=
  if frame_w = 0 then .error .zeroDivisionError
  else
    let pan_offset := (target_x / frame_w) * 2 - 1
    if frame_h = 0 then .error .zeroDivisionError
    else
      let tilt_offset := 1 - (target_y / frame_h) * 2
      if "set_pan_pct" ∈ crane2SMethods then .ok (pan_offset, tilt_offset)
      else .error (.attributeError "set_pan_pct")

/-- C7: `track_2d` can never issue the percentage moves: `Crane2S` defines
`pan_pct`/`tilt_pct` but `track_2d` calls `set_pan_pct`/`set_tilt_pct`, so
with nonzero frame dimensions the call dies with `AttributeError`; with
`frame_w = 0` it raises `ZeroDivisionError` (not a dedicated
`InvalidArgument`) from computing the offset. -/
theorem track_2d_calls_missing_method :
    track_2d 100 100 200 200 (1/10) = .error (.attributeError "set_pan_pct") ∧
    ¬ "set_pan_pct" ∈ crane2SMethods ∧
    ¬ "set_tilt_pct" ∈ crane2SMethods ∧
    "pan_pct" ∈ crane2SMethods ∧
    "tilt_pct" ∈ crane2SMethods ∧
    track_2d 100 100 0 200 (1/10) = .error .zeroDivisionError := by
  exact ⟨rfl, by decide, by decide, by decide, by decide, rfl⟩

/-- A Python dict with string keys and preset values, as a lookup function
(`d[k] = v` is pointwise update). -/
def PresetDict := String → Option (ℚ × ℚ)

/-- `Crane2SPresets.__init__`: `self.presets = {}`. -/
def emptyPresets : PresetDict := fun _ => none

/-- `Crane2SPresets.save_preset(name, pan_pct, tilt_pct)`:
`self.presets[name] = (pan_pct, tilt_pct)` — the pair is stored verbatim,
with no validation and no clamping. -/
def save_preset (d : PresetDict) (name : String) (pan_pct tilt_pct : ℚ) :
    PresetDict :=
  fun n => if n = name then some (pan_pct, tilt_pct) else d n

/-- C8 (amended): after `save_preset(name, pan, tilt)` the store maps `name`
to exactly the pair `(pan, tilt)` — unvalidated and unclamped — overwriting
any previously stored preset of that name, and leaves every other name's
binding unchanged. -/
theorem save_preset_stores_verbatim (d : PresetDict) (name other : String)
    (pan tilt : ℚ) (h : other ≠ name) :
    save_preset d name pan tilt name = some (pan, tilt) ∧
    save_preset d name pan tilt other = d other := by
  constructor
  · rw [save_preset, if_pos rfl]
  · rw [save_preset, if_neg h]

/-- Witness for `save_preset_stores_verbatim`: overwrite an existing binding
of "home" and leave "away" unbound. -/
theorem save_preset_stores_verbatim_witness :
    save_preset (save_preset emptyPresets "home" 5 5) "home" (1/4) (-1/2) "home"
      = some (1/4, -1/2) ∧
    save_preset (save_preset emptyPresets "home" 5 5) "home" (1/4) (-1/2) "away"
      = save_preset emptyPresets "home" 5 5 "away" :=
  save_preset_stores_verbatim (save_preset emptyPresets "home" 5 5)
    "home" "away" (1/4) (-1/2) (by decide)

/-- C8 counterexample: `save_preset("x", 2, -3)` stores the pair `(2, -3)`
unchanged, whose components lie outside `[-1, 1]` — nothing is clamped. -/
theorem save_preset_does_not_clamp :
    save_preset emptyPresets "x" 2 (-3) "x" = some (2, -3) ∧
    ¬ ((2 : ℚ) ≤ 1) ∧ ((-3 : ℚ) < -1) := by
  exact ⟨rfl, by norm_num, by norm_num⟩

/-- `Crane2SProtocol.pan_step(direction, step, speed)`: value `step` for
"right", `4095 - step + 1` for "left", otherwise `ValueError` raised before
`self.pan` (and hence `_next_seq`) is reached. -/
def pan_step (direction : String) (step speed : ℤ) (s : ℕ) :
    Except PyErr (List ℕ × ℕ) :=
  if direction = "right" then .ok (build_cmd 2 step speed s)
  else if direction = "left" then .ok (build_cmd 2 (4095 - step + 1) speed s)
  else .error (.valueError "direction must be left or right")

/-- `Crane2SProtocol.tilt_step(direction, step, speed)`: value `2047 - step`
for "up", `2048 + step` for "down", otherwise `ValueError` raised before
`self.tilt` is reached. -/
def tilt_step (direction : String) (step speed : ℤ) (s : ℕ) :
    Except PyErr (List ℕ × ℕ) :=
  if direction = "up" then .ok (build_cmd 1 (2047 - step) speed s)
  else if direction = "down" then .ok (build_cmd 1 (2048 + step) speed s)
  else .error (.valueError "direction must be up or down")

/-- `Crane2S.pan_step`: the `match direction` computes the value, the default
case raises `ValueError` before `send_cmd` is reached, so the instance state
is untouched. -/
def main_pan_step (direction : String) (step speed : ℤ) (st : CraneState) :
    CraneState × Except PyErr (List ℕ) :=
  if direction = "right" then send_cmd 2 step speed st
  else if direction = "left" then send_cmd 2 (4095 - step + 1) speed st
  else (st, .error (.valueError "Use left or right"))

/-- `Crane2S.tilt_step`: as `main_pan_step`, for "up"/"down". -/
def main_tilt_step (direction : String) (step speed : ℤ) (st : CraneState) :
    CraneState × Except PyErr (List ℕ) :=
  if direction = "up" then send_cmd 1 (2047 - step) speed st
  else if direction = "down" then send_cmd 1 (2048 + step) speed st
  else (st, .error (.valueError "Use up or down"))

/-- C10: for any direction token outside the function's own valid set —
`dirP` outside {"left", "right"} for the pan steps, `dirT` outside
{"up", "down"} for the tilt steps, each constrained independently, so
cross-axis tokens such as `pan_step("up")` or `tilt_step("left")` are
covered — both the pure-protocol and the transport-bound step commands
raise `ValueError` without building or sending a frame and with the
controller state — the sequence counter included — unchanged. -/
theorem step_invalid_direction_raises (dirP dirT : String) (step speed : ℤ)
    (s : ℕ) (st : CraneState)
    (hPL : dirP ≠ "left") (hPR : dirP ≠ "right")
    (hTU : dirT ≠ "up") (hTD : dirT ≠ "down") :
    pan_step dirP step speed s =
      .error (.valueError "direction must be left or right") ∧
    tilt_step dirT step speed s =
      .error (.valueError "direction must be up or down") ∧
    main_pan_step dirP step speed st =
      (st, .error (.valueError "Use left or right")) ∧
    main_tilt_step dirT step speed st =
      (st, .error (.valueError "Use up or down")) := by
  refine ⟨?_, ?_, ?_, ?_⟩
  · rw [pan_step, if_neg hPR, if_neg hPL]
  · rw [tilt_step, if_neg hTU, if_neg hTD]
  · rw [main_pan_step, if_neg hPR, if_neg hPL]
  · rw [main_tilt_step, if_neg hTU, if_neg hTD]

/-- Witness for `step_invalid_direction_raises` at the cross-axis tokens:
`pan_step`/`main_pan_step` fed "up" and `tilt_step`/`main_tilt_step` fed
"left" all raise with the state unchanged. -/
theorem step_invalid_direction_raises_witness :
    pan_step "up" 1 10 0 =
      .error (.valueError "direction must be left or right") ∧
    tilt_step "left" 1 10 0 =
      .error (.valueError "direction must be up or down") ∧
    main_pan_step "up" 1 10 craneInit =
      (craneInit, .error (.valueError "Use left or right")) ∧
    main_tilt_step "left" 1 10 craneInit =
      (craneInit, .error (.valueError "Use up or down")) :=
  step_invalid_direction_raises "up" "left" 1 10 0 craneInit
    (by decide) (by decide) (by decide) (by decide)
